import Mathlib

/-!
Verification of the course-scraper state-diff and rendering core
(`lambda_function.py`).

Python dictionaries are embedded as association lists that record insertion
order (`List (key × value)`); `dict_get` is `dict.get` (first matching key),
and membership `k in d` corresponds to `dict_get k d ≠ none`.  Heterogeneous
record dictionaries (`{"title": ..., "sections": ..., "fetch_error": ...}`,
section data and change-event dictionaries) are embedded as structures whose
optional fields model possibly-missing keys, so that `d.get(key, default)`
becomes `field.getD default`.  Python `int` is `Int`.
-/

namespace SocScraper

/-- Constant `PARSE_ERROR_DEFAULT` from the configuration block: the sentinel integer
standing for an unknown / unparseable seat count. -/
def PARSE_ERROR_DEFAULT : Int := -999

/-- Constant `STARRED_COURSES` from the configuration block. -/
def STARRED_COURSES : List String :=
  ["CMSC320", "CMSC335", "CMSC414", "CMSC417", "CMSC421",
   "CMSC424", "CMSC430", "CMSC433", "CMSC434", "CMSC435", "CMSC436"]

/-- A section-data dictionary (`{"open": ..., "total": ..., "waitlist": ...,
"instructor": ...}`).  Every field is optional because the code always reads
it with `dict.get` and a default. -/
structure SectionData where
  opn : Option Int
  total : Option Int
  waitlist : Option Int
  instructor : Option String
deriving DecidableEq

/-- A course-data dictionary (`{"title": ..., "sections": ...,
"fetch_error": ...}`).  `sections` is `none` when the `"sections"` key is
absent (as in the fetch-error records built at line 112). -/
structure CourseData where
  title : Option String
  sections : Option (List (String × SectionData))
  fetch_error : Bool
deriving DecidableEq

/-- A state dictionary: course id to course data, in insertion order. -/
abbrev State := List (String × CourseData)

/-- Python `dict.get k` on an association list (first matching key). -/
def dict_get {κ α : Type} [DecidableEq κ] (k : κ) : List (κ × α) → Option α
  | [] => none
  | p :: rest => if p.1 = k then some p.2 else dict_get k rest

/-- Python `str.startswith`, used by `course_id.startswith("CMSC4")`. -/
def py_startswith (s pat : String) : Bool :=
  pat.data.isPrefixOf s.data

/-- The value carried by the `old_val` / `new_val` keys of a change
dictionary: an `int` for the numeric fields, a `str` for the instructor. -/
inductive FieldVal where
  | int : Int → FieldVal
  | str : String → FieldVal
deriving DecidableEq

/-- A change dictionary as appended by `compare_states`.  `field`,
`old_val`, `new_val` are optional because only the field-change events
carry them. -/
structure Change where
  type : String
  course : String
  title : String
  section_ : String
  data : SectionData
  field : Option String
  old_val : Option FieldVal
  new_val : Option FieldVal
deriving DecidableEq

/-- A change dictionary without the `field` / `old_val` / `new_val` keys
(the `NEW_CMSC4_COURSE`, `NEW_COURSE_SECTION`, `NEW_SECTION` and
`SECTION_REMOVED` events). -/
def plain_change (ctype course title sid : String) (data : SectionData) : Change :=
  ⟨ctype, course, title, sid, data, none, none, none⟩

/-- A change dictionary carrying `field`, `old_val` and `new_val` (the
`SEATS_OPENED`, `OPEN_CHANGE`, `TOTAL_CHANGE`, `WAITLIST_CHANGE` and
`INSTR_CHANGE` events). -/
def field_change (ctype course title sid : String) (data : SectionData)
    (fld : String) (ov nv : FieldVal) : Change :=
  ⟨ctype, course, title, sid, data, some fld, some ov, some nv⟩

/-- The `default_section` dictionary built at line 147 of
`compare_states`. -/
def default_section : SectionData :=
  ⟨some PARSE_ERROR_DEFAULT, some PARSE_ERROR_DEFAULT, some PARSE_ERROR_DEFAULT,
   some "Unknown"⟩

/-- The `open` comparison of `compare_states` (lines 159–161). -/
def open_changes (cid title sid : String) (osd nsd : SectionData) : List Change :=
  let old_open := osd.opn.getD PARSE_ERROR_DEFAULT
  let new_open := nsd.opn.getD PARSE_ERROR_DEFAULT
  if old_open = 0 ∧ new_open > 0 then
    [field_change "SEATS_OPENED" cid title sid nsd "open"
      (.int old_open) (.int new_open)]
  else if old_open ≠ new_open ∧ new_open ≠ PARSE_ERROR_DEFAULT ∧
      old_open ≠ PARSE_ERROR_DEFAULT then
    [field_change "OPEN_CHANGE" cid title sid nsd "open"
      (.int old_open) (.int new_open)]
  else []

/-- The `total` comparison of `compare_states` (lines 162–163). -/
def total_changes (cid title sid : String) (osd nsd : SectionData) : List Change :=
  let old_total := osd.total.getD PARSE_ERROR_DEFAULT
  let new_total := nsd.total.getD PARSE_ERROR_DEFAULT
  if old_total ≠ new_total ∧ new_total ≠ PARSE_ERROR_DEFAULT ∧
      old_total ≠ PARSE_ERROR_DEFAULT then
    [field_change "TOTAL_CHANGE" cid title sid nsd "total"
      (.int old_total) (.int new_total)]
  else []

/-- The `waitlist` comparison of `compare_states` (lines 164–165). -/
def waitlist_changes (cid title sid : String) (osd nsd : SectionData) : List Change :=
  let old_wait := osd.waitlist.getD PARSE_ERROR_DEFAULT
  let new_wait := nsd.waitlist.getD PARSE_ERROR_DEFAULT
  if old_wait ≠ new_wait ∧ new_wait ≠ PARSE_ERROR_DEFAULT ∧
      old_wait ≠ PARSE_ERROR_DEFAULT then
    [field_change "WAITLIST_CHANGE" cid title sid nsd "waitlist"
      (.int old_wait) (.int new_wait)]
  else []

/-- The `instructor` comparison of `compare_states` (lines 166–167); note
the differing defaults `"Unknown"` (old) and `"TBA"` (new). -/
def instr_changes (cid title sid : String) (osd nsd : SectionData) : List Change :=
  let old_instr := osd.instructor.getD "Unknown"
  let new_instr := nsd.instructor.getD "TBA"
  if old_instr ≠ new_instr ∧ old_instr ≠ "Unknown" then
    [field_change "INSTR_CHANGE" cid title sid nsd "instructor"
      (.str old_instr) (.str new_instr)]
  else []

/-- The four field comparisons of `compare_states` for a section present in
both states (lines 158–167), in source order. -/
def compare_section (cid title sid : String) (osd nsd : SectionData) : List Change :=
  open_changes cid title sid osd nsd ++ total_changes cid title sid osd nsd ++
  waitlist_changes cid title sid osd nsd ++ instr_changes cid title sid osd nsd

/-- The section-by-section part of the first loop of `compare_states`
(lines 155–167) for one entry of `new_sections`: a `NEW_SECTION` event when
the section is absent from `old_sections`, else the four field
comparisons. -/
def section_changes (cid new_title : String)
    (old_sections : List (String × SectionData)) (p : String × SectionData) :
    List Change :=
  if dict_get p.1 old_sections = none then
    [plain_change "NEW_SECTION" cid new_title p.1 p.2]
  else
    compare_section cid new_title p.1
      ((dict_get p.1 old_sections).getD default_section) p.2

/-- The body of the first loop of `compare_states` (lines 148–167) for one
entry of `new_state`.  The `continue` at the end of line 153 sits inside the
single-line inner `for`, so after the new-course events the control flow
falls through to the section-by-section loop (with `old_course_data = {}`),
which is reproduced here. -/
def course_changes (old_state : State) (cid : String) (ncd : CourseData) : List Change :=
  if ncd.fetch_error then []
  else
    let new_title := ncd.title.getD "Unknown"
    let new_sections := ncd.sections.getD []
    let new_course_events :=
      if dict_get cid old_state = none then
        let change_type :=
          if py_startswith cid "CMSC4" then "NEW_CMSC4_COURSE" else "NEW_COURSE_SECTION"
        new_sections.map (fun p => plain_change change_type cid new_title p.1 p.2)
      else []
    let old_course_data := (dict_get cid old_state).getD ⟨none, none, false⟩
    let old_sections := old_course_data.sections.getD []
    new_course_events ++ new_sections.flatMap (section_changes cid new_title old_sections)

/-- The body of the second loop of `compare_states` (lines 168–172) for one
entry of `old_state`: `SECTION_REMOVED` events for sections gone from the
new state. -/
def removal_changes (new_state : State) (cid : String) (ocd : CourseData) : List Change :=
  match dict_get cid new_state with
  | some ncd =>
    if ncd.fetch_error then []
    else
      let old_sections := ocd.sections.getD []
      let new_sections := ncd.sections.getD []
      old_sections.flatMap (fun p =>
        if dict_get p.1 new_sections = none then
          [plain_change "SECTION_REMOVED" cid (ocd.title.getD "Unknown") p.1 p.2]
        else [])
  | none => []

/-- Function `compare_states` (lines 145–173): the first loop over `new_state`
followed by the removal loop over `old_state`, appending to one list. -/
def compare_states (old_state new_state : State) : List Change :=
  new_state.flatMap (fun p => course_changes old_state p.1 p.2) ++
  old_state.flatMap (fun p => removal_changes new_state p.1 p.2)

/-- Well-formedness of a state as a Python dictionary of dictionaries:
course keys are distinct and each course's section keys are distinct. -/
def WF (s : State) : Prop :=
  (s.map Prod.fst).Nodup ∧ ∀ p ∈ s, (((p.2).sections.getD []).map Prod.fst).Nodup

instance (s : State) : Decidable (WF s) := by
  unfold WF
  infer_instance

/-- Python string `<` (code-point lexicographic), on character lists. -/
def chars_lt : List Char → List Char → Bool
  | [], [] => false
  | [], _ :: _ => true
  | _ :: _, [] => false
  | a :: as, b :: bs => if a < b then true else if b < a then false else chars_lt as bs

/-- Python string comparison `a < b` as used by `sorted`. -/
def py_str_lt (a b : String) : Bool :=
  chars_lt a.data b.data

/-- Insert an element into a sorted list (insertion step of the sort used
to model Python `sorted`). -/
def insort {α : Type} (lt : α → α → Bool) (x : α) : List α → List α
  | [] => [x]
  | y :: ys => if lt y x then y :: insort lt x ys else x :: y :: ys

/-- Insertion sort used to model Python `sorted`. -/
def pysorted {α : Type} (lt : α → α → Bool) (l : List α) : List α :=
  l.foldr (insort lt) []

/-- Python `sorted(d.items())` for a dictionary with string keys: since the
keys are distinct, the tuples are ordered by key. -/
def sorted_items {α : Type} (l : List (String × α)) : List (String × α) :=
  pysorted (fun p q => py_str_lt p.1 q.1) l

/-- Function `get_status_emoji` (lines 176–179).  The source file stores the glyphs
as literal mojibake character sequences, which are reproduced exactly. -/
def get_status_emoji (open_seats total_seats : Int) : String :=
  if open_seats = 0 then "üî¥ "
  else if open_seats > 0 ∧ open_seats < total_seats then "‚è≥ "
  else ""

/-- Python `s[:n]` (slice with a possibly negative bound). -/
def py_take (s : String) (n : Int) : String :=
  if 0 ≤ n then ⟨s.data.take n.toNat⟩
  else ⟨s.data.take (((s.length : Int) + n).toNat)⟩

/-- Python `f"{d:+}"` for an integer: an explicit sign. -/
def py_plus_format (d : Int) : String :=
  if 0 ≤ d then "+" ++ toString d else toString d

/-- Python `int(v)` on a change value: an `int` passes through, a `str` is
parsed, `none` standing for the `ValueError` of a non-numeric string. -/
def py_int_of_val : FieldVal → Option Int
  | .int n => some n
  | .str s => s.toInt?

/-- Python truthiness of an optional string (`None` and `""` are falsy). -/
def py_truthy_str : Option String → Bool
  | none => false
  | some s => !s.isEmpty

/-- Python `v != PARSE_ERROR_DEFAULT` for a change value (a string is
always different from the integer sentinel). -/
def val_ne_sentinel : FieldVal → Bool
  | .int n => n != PARSE_ERROR_DEFAULT
  | .str _ => true

/-- Python `f"{v}"` for a change value. -/
def py_str_of_val : FieldVal → String
  | .int n => toString n
  | .str s => s

/-- Python `f"{v}"` for an optional change value (`None` renders as
`"None"`). -/
def py_str_of_opt_val : Option FieldVal → String
  | none => "None"
  | some v => py_str_of_val v

/-- The four field strings and the tag list that the loop of
`format_section_line` (lines 265–289) threads through its iterations. -/
structure LineParts where
  open_str : String
  total_str : String
  wait_str : String
  instr_str : String
  change_tags : List String

/-- One iteration of the change loop of `format_section_line`
(lines 266–289): compute `diff_str` and update the bolded field strings and
tags according to the change type. -/
def apply_change (parts : LineParts) (change : Change) : LineParts :=
  let diff_str :=
    if py_truthy_str change.field && change.old_val.isSome && change.new_val.isSome &&
        (match change.old_val with | some v => val_ne_sentinel v | none => true) &&
        (match change.new_val with | some v => val_ne_sentinel v | none => true) then
      match change.old_val, change.new_val with
      | some ov, some nv =>
        match py_int_of_val nv, py_int_of_val ov with
        | some a, some b =>
          let diff := a - b
          if diff ≠ 0 ∨ change.type = "SEATS_OPENED" then
            " (" ++ py_plus_format diff ++ "d)"
          else ""
        | _, _ => " (?)"
      | _, _ => " (?)"
    else ""
  if change.type = "SEATS_OPENED" then
    { parts with
      open_str := "**Open: " ++ py_str_of_opt_val change.new_val ++ "**" ++ diff_str,
      change_tags := parts.change_tags ++ ["üü¢ OPENED"] }
  else if change.type = "OPEN_CHANGE" then
    { parts with
      open_str := "**Open: " ++ py_str_of_opt_val change.new_val ++ "**" ++ diff_str }
  else if change.type = "TOTAL_CHANGE" then
    { parts with
      total_str := "**Total: " ++ py_str_of_opt_val change.new_val ++ "**" ++ diff_str }
  else if change.type = "WAITLIST_CHANGE" then
    { parts with
      wait_str := "**Waitlist: " ++ py_str_of_opt_val change.new_val ++ "**" ++ diff_str }
  else if change.type = "INSTR_CHANGE" then
    { parts with
      instr_str := "**Instr: " ++ py_str_of_opt_val change.new_val ++ "** (was " ++
        py_str_of_opt_val change.old_val ++ ")" }
  else if change.type = "NEW_SECTION" then
    { parts with change_tags := parts.change_tags ++ ["‚ûï NEW"] }
  else if change.type = "NEW_COURSE_SECTION" then
    { parts with change_tags := parts.change_tags ++ ["‚ú® NEW CRS"] }
  else if change.type = "NEW_CMSC4_COURSE" then
    { parts with change_tags := parts.change_tags ++ ["üö® NEW CMSC4"] }
  else parts

/-- Function `format_section_line` (lines 252–303): render one section line,
applying the annotations of the given changes; absent numeric fields
render as `"?"`. -/
def format_section_line (section_id : String) (data : SectionData)
    (changes : List Change) : String :=
  let opn := data.opn.getD PARSE_ERROR_DEFAULT
  let tot := data.total.getD PARSE_ERROR_DEFAULT
  let wl := data.waitlist.getD PARSE_ERROR_DEFAULT
  let instr := data.instructor.getD "TBA"
  let opn_str_val := if opn ≠ PARSE_ERROR_DEFAULT then toString opn else "?"
  let tot_str_val := if tot ≠ PARSE_ERROR_DEFAULT then toString tot else "?"
  let wl_str_val := if wl ≠ PARSE_ERROR_DEFAULT then toString wl else "?"
  let parts0 : LineParts :=
    ⟨"Open: " ++ opn_str_val, "Total: " ++ tot_str_val, "Waitlist: " ++ wl_str_val,
     "Instr: " ++ instr, []⟩
  let parts := changes.foldl apply_change parts0
  let status_emoji0 :=
    if opn ≠ PARSE_ERROR_DEFAULT ∧ tot ≠ PARSE_ERROR_DEFAULT then
      get_status_emoji opn tot
    else if opn = 0 then "üî¥ "
    else ""
  let status_emoji :=
    if "üü¢ OPENED" ∈ parts.change_tags then "üü¢ "
    else status_emoji0
  let tags_str :=
    if !parts.change_tags.isEmpty then
      " *(" ++ String.intercalate ", " parts.change_tags ++ ")*"
    else ""
  "  ‚Ä¢ " ++ status_emoji ++ "`" ++ section_id ++ "`: " ++
    parts.open_str ++ ", " ++ parts.total_str ++ ", " ++ parts.wait_str ++ ", " ++
    parts.instr_str ++ tags_str

/-- The lookup built by `build_change_lookup`: `(courseId, sectionId)` to
the list of changes affecting that section, in insertion order. -/
abbrev ChangeLookup := List ((String × String) × List Change)

/-- One step of `build_change_lookup` (lines 185–189): append the change to
the entry for its key, creating the entry if absent. -/
def add_change (lookup : ChangeLookup) (key : String × String) (c : Change) :
    ChangeLookup :=
  match lookup with
  | [] => [(key, [c])]
  | (k, cs) :: rest =>
    if k = key then (k, cs ++ [c]) :: rest else (k, cs) :: add_change rest key c

/-- Function `build_change_lookup` (lines 182–190). -/
def build_change_lookup (changes : List Change) : ChangeLookup :=
  changes.foldl (fun lk c => add_change lk (c.course, c.section_) c) []

/-- Function `format_state_message` (lines 192–248), as a fallible computation.  The
removed-sections block at line 231 iterates over the name `changes`, which
is not defined in the function's scope (the in-source comment on that line
even says "This was the bug, iterating over the wrong variable"), so
whenever `change_lookup` is truthy (non-empty) and the course loop was
reached, the function raises `NameError`; this is modelled by the `.error`
result.  With an empty lookup the function returns the rendered message. -/
def format_state_message (state_data : State) (change_lookup : ChangeLookup) :
    Except String String :=
  if state_data.isEmpty then .ok "**State Message**: No courses found/parsed."
  else
    let header :=
      if !change_lookup.isEmpty then "**üìä Course Section Update:**"
      else "**üìä Initial State (" ++ toString state_data.length ++
        " courses monitored):**"
    let lines := (sorted_items state_data).flatMap (fun p =>
      let course_id := p.1
      let course_data := p.2
      let star := if course_id ∈ STARRED_COURSES then "‚≠ê " else ""
      let title := course_data.title.getD "Unknown Title"
      let sections := course_data.sections.getD []
      let title_short :=
        if (title.length : Int) > 45 - (course_id.length : Int) then
          py_take title (45 - (course_id.length : Int)) ++ "..."
        else title
      let course_line := "\n" ++ star ++ "**`" ++ course_id ++ "`** (" ++ title_short ++ "):"
      if course_data.fetch_error then
        [course_line,
         "  ‚Ä¢ ‚ö†Ô∏è *(Fetch Error: Data may be stale)*"]
      else if sections.isEmpty then
        [course_line, "  ‚Ä¢ *(No sections found/parsed.)*"]
      else
        course_line :: (sorted_items sections).map (fun q =>
          format_section_line q.1 q.2 ((dict_get (course_id, q.1) change_lookup).getD [])))
    if !change_lookup.isEmpty then
      .error "NameError: name changes is not defined"
    else
      .ok (String.intercalate "\n" (header :: lines))

/-- Constant `SEND_DISCORD_NOTIFICATION` from the configuration block. -/
def SEND_DISCORD_NOTIFICATION : Bool := true

/-- The merge of `lambda_handler` (lines 366–383): build `new_state` from
the fetched data, substituting the old record for fetch-errored courses and
retaining old courses missing from the fetch, collecting `fetch_errors`. -/
def merge_fetched_state (old_state fetched_state : State) : State × List String :=
  let step1 := fetched_state.foldl (fun (acc : State × List String) p =>
    if p.2.fetch_error then
      match dict_get p.1 old_state with
      | some od => (acc.1 ++ [(p.1, od)], acc.2 ++ [p.1])
      | none => (acc.1 ++ [(p.1, p.2)], acc.2 ++ [p.1])
    else (acc.1 ++ [(p.1, p.2)], acc.2)) ([], [])
  old_state.foldl (fun (acc : State × List String) p =>
    if dict_get p.1 fetched_state = none then
      (acc.1 ++ [(p.1, p.2)],
       if acc.2.contains p.1 then acc.2 else acc.2 ++ [p.1 ++ " (missing from fetch)"])
    else acc) step1

/-- The observable outcome of one run: the returned status code and body,
and the state passed to `save_current_state_s3` (`none` when no save was
attempted). -/
structure RunOutcome where
  statusCode : Nat
  body : String
  saved : Option State
deriving DecidableEq

/-- The decision logic of `lambda_handler` (lines 355–434), as a pure
function of the loaded old state, the fetched data, and the S3 save result
(`save_ok`).  Network fetching, notification delivery, console printing and
the duration figure in the final body are external effects and are omitted;
an uncaught Python exception (the renderer's `NameError`) is the `.error`
result. -/
def lambda_handler (old_state fetched_state : State) (save_ok : Bool) :
    Except String RunOutcome :=
  let merged := merge_fetched_state old_state fetched_state
  let new_state := merged.1
  let fetch_errors := merged.2
  let parsing_successful :=
    new_state.any (fun p => !(p.2.sections.getD []).isEmpty) || fetched_state.isEmpty
  if !parsing_successful && !fetched_state.isEmpty then
    if !old_state.isEmpty then
      .ok ⟨200, "Parsing failed, skipped update.", none⟩
    else
      .ok ⟨500, "Failed parsing on initial run.", none⟩
  else if old_state.isEmpty then
    match format_state_message new_state [] with
    | .error e => .error e
    | .ok _ => .ok ⟨if save_ok then 200 else 500, "Scraper run complete.", some new_state⟩
  else
    let changes := compare_states old_state new_state
    if !changes.isEmpty then
      if SEND_DISCORD_NOTIFICATION then
        match format_state_message new_state (build_change_lookup changes) with
        | .error e => .error e
        | .ok _ =>
          .ok ⟨if save_ok then 200 else 500, "Scraper run complete.", some new_state⟩
      else
        .ok ⟨if save_ok then 200 else 500, "Scraper run complete.", some new_state⟩
    else
      if !fetch_errors.isEmpty then
        .ok ⟨if save_ok then 200 else 500, "Scraper run complete.", some new_state⟩
      else
        .ok ⟨200, "Scraper run complete.", none⟩

theorem dict_get_eq_none {κ α : Type} [DecidableEq κ] {k : κ} {l : List (κ × α)} :
    dict_get k l = none ↔ ∀ p ∈ l, p.1 ≠ k := by
  induction l with
  | nil => simp [dict_get]
  | cons p rest ih =>
    by_cases h : p.1 = k <;> simp [dict_get, h, ih]

theorem dict_get_mem {κ α : Type} [DecidableEq κ] {k : κ} {l : List (κ × α)} {v : α}
    (h : dict_get k l = some v) : (k, v) ∈ l := by
  induction l with
  | nil => simp [dict_get] at h
  | cons p rest ih =>
    by_cases hp : p.1 = k
    · simp only [dict_get, hp, if_pos] at h
      have : p = (k, v) := by
        cases p
        simp_all
      rw [← this]
      exact List.mem_cons_self _ _
    · simp only [dict_get, hp, if_neg, if_false] at h
      exact List.mem_cons_of_mem _ (ih h)

theorem dict_get_of_mem_nodup {κ α : Type} [DecidableEq κ] {k : κ} {l : List (κ × α)}
    {v : α} (hnd : (l.map Prod.fst).Nodup) (hmem : (k, v) ∈ l) :
    dict_get k l = some v := by
  induction l with
  | nil => simp at hmem
  | cons p rest ih =>
    simp only [List.map_cons, List.nodup_cons] at hnd
    rcases List.mem_cons.mp hmem with h | h
    · simp [dict_get, ← h]
    · have hk : p.1 ≠ k := by
        intro hpk
        exact hnd.1 (hpk ▸ (List.mem_map.mpr ⟨(k, v), h, rfl⟩))
      simp [dict_get, hk, ih hnd.2 h]

/-- In a flat-map over an association list with distinct keys, if every
entry other than the one holding key `k` contributes nothing, the whole
flat-map is the contribution of the entry for `k`. -/
theorem flatMap_eq_single {α β : Type} {l : List (String × α)} {f : String × α → List β}
    {k : String} {v : α} (hnd : (l.map Prod.fst).Nodup)
    (hget : dict_get k l = some v)
    (hz : ∀ p ∈ l, p.1 ≠ k → f p = []) : l.flatMap f = f (k, v) := by
  induction l with
  | nil => simp [dict_get] at hget
  | cons p rest ih =>
    simp only [List.map_cons, List.nodup_cons] at hnd
    by_cases hp : p.1 = k
    · simp only [dict_get, hp, if_pos] at hget
      have hrest : rest.flatMap f = [] := by
        rw [List.flatMap_eq_nil_iff]
        intro q hq
        refine hz q (List.mem_cons_of_mem _ hq) ?_
        intro hqk
        apply hnd.1
        rw [hp, ← hqk]
        exact List.mem_map.mpr ⟨q, hq, rfl⟩
      have hpv : p = (k, v) := by
        cases p
        simp_all
      rw [List.flatMap_cons, hrest, List.append_nil, hpv]
    · simp only [dict_get, hp, if_neg, if_false] at hget
      rw [List.flatMap_cons, hz p (List.mem_cons_self _ _) hp, List.nil_append]
      exact ih hnd.2 hget (fun q hq => hz q (List.mem_cons_of_mem _ hq))

/-- If no entry contributes, the flat-map over an association list is empty;
key-based variant of `List.flatMap_eq_nil_iff` for a key that is absent. -/
theorem flatMap_eq_nil_of_get_none {α β : Type} {l : List (String × α)}
    {f : String × α → List β} {k : String} (hget : dict_get k l = none)
    (hz : ∀ p ∈ l, p.1 ≠ k → f p = []) : l.flatMap f = [] := by
  rw [List.flatMap_eq_nil_iff]
  intro p hp
  exact hz p hp (dict_get_eq_none.mp hget p hp)

/-- Every event produced by the field comparisons of one section carries
that course id, that section id, and one of the five field-change types. -/
theorem mem_compare_section {e : Change} {cid t sid : String} {osd nsd : SectionData}
    (he : e ∈ compare_section cid t sid osd nsd) :
    e.course = cid ∧ e.section_ = sid ∧
      (e.type = "SEATS_OPENED" ∨ e.type = "OPEN_CHANGE" ∨ e.type = "TOTAL_CHANGE" ∨
       e.type = "WAITLIST_CHANGE" ∨ e.type = "INSTR_CHANGE") := by
  unfold compare_section open_changes total_changes waitlist_changes instr_changes at he
  simp only [List.mem_append] at he
  rcases he with ((h | h) | h) | h <;>
  · split_ifs at h <;> simp_all [field_change]

/-- Every event produced for one entry of `new_sections` carries that course
id and that section id and is not a removal event. -/
theorem mem_section_changes {e : Change} {cid t : String}
    {os : List (String × SectionData)} {p : String × SectionData}
    (he : e ∈ section_changes cid t os p) :
    e.course = cid ∧ e.section_ = p.1 ∧ e.type ≠ "SECTION_REMOVED" := by
  unfold section_changes at he
  split_ifs at he with h
  · simp only [List.mem_singleton] at he
    subst he
    exact ⟨rfl, rfl, (by decide : ("NEW_SECTION" : String) ≠ "SECTION_REMOVED")⟩
  · obtain ⟨h1, h2, h3⟩ := mem_compare_section he
    refine ⟨h1, h2, ?_⟩
    rcases h3 with h | h | h | h | h <;> (rw [h]; decide)

/-- Every event produced by the first loop of `compare_states` for the entry
`(cid, ncd)` of `new_state` carries course id `cid` and is not a removal
event. -/
theorem mem_course_changes {e : Change} {old_state : State} {cid : String}
    {ncd : CourseData} (he : e ∈ course_changes old_state cid ncd) :
    e.course = cid ∧ e.type ≠ "SECTION_REMOVED" := by
  unfold course_changes at he
  split_ifs at he with hfe hnew hpre
  · simp at he
  · simp only [List.mem_append, List.mem_map, List.mem_flatMap] at he
    rcases he with ⟨p, hp, h⟩ | ⟨p, hp, h⟩
    · rw [← h]
      exact ⟨rfl, (by decide : ("NEW_CMSC4_COURSE" : String) ≠ "SECTION_REMOVED")⟩
    · obtain ⟨h1, h2, h3⟩ := mem_section_changes h
      exact ⟨h1, h3⟩
  · simp only [List.mem_append, List.mem_map, List.mem_flatMap] at he
    rcases he with ⟨p, hp, h⟩ | ⟨p, hp, h⟩
    · rw [← h]
      exact ⟨rfl, (by decide : ("NEW_COURSE_SECTION" : String) ≠ "SECTION_REMOVED")⟩
    · obtain ⟨h1, h2, h3⟩ := mem_section_changes h
      exact ⟨h1, h3⟩
  · simp only [List.mem_append, List.nil_append, List.mem_flatMap] at he
    obtain ⟨p, hp, h⟩ := he
    obtain ⟨h1, h2, h3⟩ := mem_section_changes h
    exact ⟨h1, h3⟩

/-- Every event produced by the removal loop of `compare_states` for the
entry `(cid, ocd)` of `old_state` carries course id `cid`, has type
`SECTION_REMOVED`, and reports a section absent from the (non-errored) new
course data. -/
theorem mem_removal_changes {e : Change} {new_state : State} {cid : String}
    {ocd : CourseData} (he : e ∈ removal_changes new_state cid ocd) :
    e.course = cid ∧ e.type = "SECTION_REMOVED" ∧
      ∃ ncd, dict_get cid new_state = some ncd ∧ ncd.fetch_error = false ∧
        dict_get e.section_ (ncd.sections.getD []) = none := by
  rcases hn : dict_get cid new_state with _ | ncd
  · simp only [removal_changes, hn] at he
    simp at he
  · simp only [removal_changes, hn] at he
    split_ifs at he with hfe
    · simp at he
    · simp only [List.mem_flatMap] at he
      obtain ⟨p, hp, h⟩ := he
      split_ifs at h with hg
      · simp only [List.mem_singleton] at h
        subst h
        refine ⟨rfl, rfl, ncd, rfl, ?_, hg⟩
        simp only [Bool.not_eq_true] at hfe
        exact hfe
      · simp at h

/-- Master characterization: for a course present in both states and a
section present in that course on both sides, the diff events carrying that
course id and section id are exactly the four field comparisons of that
section (and nothing at all if the new course data is fetch-errored). -/
theorem filter_compare_states_section
    {old_state new_state : State} {cid sid : String} {ocd ncd : CourseData}
    {osd nsd : SectionData}
    (hndn : (new_state.map Prod.fst).Nodup)
    (ho : dict_get cid old_state = some ocd)
    (hn : dict_get cid new_state = some ncd)
    (hnsnd : ((ncd.sections.getD []).map Prod.fst).Nodup)
    (hos : dict_get sid (ocd.sections.getD []) = some osd)
    (hns : dict_get sid (ncd.sections.getD []) = some nsd) :
    (compare_states old_state new_state).filter
        (fun e => e.course == cid && e.section_ == sid) =
      if ncd.fetch_error then []
      else compare_section cid (ncd.title.getD "Unknown") sid osd nsd := by
  unfold compare_states
  rw [List.filter_append]
  have hpass2 : (old_state.flatMap (fun p => removal_changes new_state p.1 p.2)).filter
      (fun e => e.course == cid && e.section_ == sid) = [] := by
    rw [List.filter_eq_nil_iff]
    intro e he hpred
    simp only [List.mem_flatMap] at he
    obtain ⟨p, hp, hmem⟩ := he
    obtain ⟨hc, _, ncd', hn', _, habs⟩ := mem_removal_changes hmem
    simp only [Bool.and_eq_true, beq_iff_eq] at hpred
    rw [← hc, hpred.1] at hn'
    rw [hn] at hn'
    cases hn'
    rw [hpred.2, hns] at habs
    cases habs
  have hpass1 : (new_state.flatMap (fun p => course_changes old_state p.1 p.2)).filter
      (fun e => e.course == cid && e.section_ == sid) =
      (course_changes old_state cid ncd).filter
        (fun e => e.course == cid && e.section_ == sid) := by
    rw [List.filter_flatMap]
    exact flatMap_eq_single hndn hn (fun p hp hne => by
      rw [List.filter_eq_nil_iff]
      intro e he hpred
      simp only [Bool.and_eq_true, beq_iff_eq] at hpred
      exact hne ((mem_course_changes he).1 ▸ hpred.1))
  rw [hpass1, hpass2, List.append_nil]
  by_cases hfe : ncd.fetch_error
  · simp [course_changes, hfe]
  · rw [if_neg hfe]
    have hcc : course_changes old_state cid ncd =
        (ncd.sections.getD []).flatMap
          (section_changes cid (ncd.title.getD "Unknown") (ocd.sections.getD [])) := by
      unfold course_changes
      rw [if_neg hfe, ho]
      simp
    rw [hcc, List.filter_flatMap]
    have hsec : ∀ p ∈ ncd.sections.getD [], p.1 ≠ sid →
        (section_changes cid (ncd.title.getD "Unknown") (ocd.sections.getD []) p).filter
          (fun e => e.course == cid && e.section_ == sid) = [] := by
      intro p hp hne
      rw [List.filter_eq_nil_iff]
      intro e he hpred
      simp only [Bool.and_eq_true, beq_iff_eq] at hpred
      exact hne ((mem_section_changes he).2.1 ▸ hpred.2)
    rw [flatMap_eq_single hnsnd hns hsec]
    have hsc : section_changes cid (ncd.title.getD "Unknown") (ocd.sections.getD [])
        (sid, nsd) = compare_section cid (ncd.title.getD "Unknown") sid osd nsd := by
      unfold section_changes
      rw [hos]
      simp
    rw [hsc, List.filter_eq_self]
    intro e he
    obtain ⟨h1, h2, _⟩ := mem_compare_section he
    simp [h1, h2]

/-- Unfolding of `course_changes` when the course is present in the old
state and the new course data is not fetch-errored. -/
theorem course_changes_of_present {old_state : State} {cid : String}
    {ncd ocd : CourseData} (hfe : ncd.fetch_error = false)
    (ho : dict_get cid old_state = some ocd) :
    course_changes old_state cid ncd =
      (ncd.sections.getD []).flatMap
        (section_changes cid (ncd.title.getD "Unknown") (ocd.sections.getD [])) := by
  unfold course_changes
  rw [ho]
  simp [hfe]

/-- Unfolding of `removal_changes` when the course is present in the new
state and not fetch-errored there. -/
theorem removal_changes_of_present {new_state : State} {cid : String}
    {ncd ocd : CourseData} (hfe : ncd.fetch_error = false)
    (hn : dict_get cid new_state = some ncd) :
    removal_changes new_state cid ocd =
      (ocd.sections.getD []).flatMap (fun p =>
        if dict_get p.1 (ncd.sections.getD []) = none then
          [plain_change "SECTION_REMOVED" cid (ocd.title.getD "Unknown") p.1 p.2]
        else []) := by
  simp [removal_changes, hn, hfe]

/-- Comparing the `open` field of a section with itself emits nothing. -/
theorem open_changes_self (cid t sid : String) (sd : SectionData) :
    open_changes cid t sid sd sd = [] := by
  simp only [open_changes]
  split_ifs with h1 h2
  · exfalso; omega
  · exact absurd rfl h2.1
  · rfl

/-- Comparing the `total` field of a section with itself emits nothing. -/
theorem total_changes_self (cid t sid : String) (sd : SectionData) :
    total_changes cid t sid sd sd = [] := by
  simp only [total_changes]
  split_ifs with h1
  · exact absurd rfl h1.1
  · rfl

/-- Comparing the `waitlist` field of a section with itself emits nothing. -/
theorem waitlist_changes_self (cid t sid : String) (sd : SectionData) :
    waitlist_changes cid t sid sd sd = [] := by
  simp only [waitlist_changes]
  split_ifs with h1
  · exact absurd rfl h1.1
  · rfl

/-- Comparing the `instructor` field of a section with itself emits
nothing: with the key present both sides are equal, and with the key absent
the old default is the `"Unknown"` sentinel, which suppresses the event. -/
theorem instr_changes_self (cid t sid : String) (sd : SectionData) :
    instr_changes cid t sid sd sd = [] := by
  simp only [instr_changes]
  split_ifs with h1
  · exfalso
    rcases h1 with ⟨hne, hunk⟩
    cases hi : sd.instructor
    · rw [hi] at hunk
      exact hunk rfl
    · rw [hi] at hne
      exact hne rfl
  · rfl

/-- Comparing a section's data with itself produces no field-change
events. -/
theorem compare_section_self (cid t sid : String) (sd : SectionData) :
    compare_section cid t sid sd sd = [] := by
  simp [compare_section, open_changes_self, total_changes_self,
    waitlist_changes_self, instr_changes_self]

/-- C3: `diff(S, S)` is the empty event sequence, for every well-formed
snapshot `S` (including fetch-errored courses and sentinel field values). -/
theorem compare_states_self_eq_nil (S : State) (hwf : WF S) :
    compare_states S S = [] := by
  obtain ⟨hnd, hsec⟩ := hwf
  unfold compare_states
  rw [List.append_eq_nil]
  constructor
  · rw [List.flatMap_eq_nil_iff]
    intro p hp
    have hget : dict_get p.1 S = some p.2 :=
      dict_get_of_mem_nodup hnd (by cases p; exact hp)
    cases hfe : p.2.fetch_error
    · rw [course_changes_of_present hfe hget, List.flatMap_eq_nil_iff]
      intro q hq
      have hqget : dict_get q.1 (p.2.sections.getD []) = some q.2 :=
        dict_get_of_mem_nodup (hsec p hp) (by cases q; exact hq)
      unfold section_changes
      rw [hqget]
      simp only [Option.getD_some, reduceCtorEq, if_false]
      exact compare_section_self p.1 (p.2.title.getD "Unknown") q.1 q.2
    · simp [course_changes, hfe]
  · rw [List.flatMap_eq_nil_iff]
    intro p hp
    have hget : dict_get p.1 S = some p.2 :=
      dict_get_of_mem_nodup hnd (by cases p; exact hp)
    cases hfe : p.2.fetch_error
    · rw [removal_changes_of_present hfe hget, List.flatMap_eq_nil_iff]
      intro q hq
      have hqget : dict_get q.1 (p.2.sections.getD []) = some q.2 :=
        dict_get_of_mem_nodup (hsec p hp) (by cases q; exact hq)
      simp [hqget]
    · simp [removal_changes, hget, hfe]

/-- Witness for C3 at a concrete snapshot containing a normal course, a
fetch-errored course, and sections holding the `-999` sentinel and a
missing instructor key. -/
theorem compare_states_self_eq_nil_witness :
    compare_states
      [("CMSC433", ⟨some "Systems", some [("0101", ⟨some 0, some 5, some 0, some "A"⟩),
          ("0102", ⟨some (-999), some (-999), none, none⟩)], false⟩),
       ("CMSC320", ⟨some "Data Sci", none, true⟩)]
      [("CMSC433", ⟨some "Systems", some [("0101", ⟨some 0, some 5, some 0, some "A"⟩),
          ("0102", ⟨some (-999), some (-999), none, none⟩)], false⟩),
       ("CMSC320", ⟨some "Data Sci", none, true⟩)] = [] :=
  compare_states_self_eq_nil _ (by constructor <;> decide)

/-- The open-kind events among a section's field comparisons are exactly the
output of the `open` comparison. -/
theorem filter_compare_section_open (cid t sid : String) (osd nsd : SectionData) :
    (compare_section cid t sid osd nsd).filter
      (fun e => e.type == "SEATS_OPENED" || e.type == "OPEN_CHANGE") =
    open_changes cid t sid osd nsd := by
  simp only [compare_section, List.filter_append, open_changes, total_changes,
    waitlist_changes, instr_changes]
  split_ifs <;> simp [field_change]

/-- The `TOTAL_CHANGE` events among a section's field comparisons are
exactly the output of the `total` comparison. -/
theorem filter_compare_section_total (cid t sid : String) (osd nsd : SectionData) :
    (compare_section cid t sid osd nsd).filter (fun e => e.type == "TOTAL_CHANGE") =
    total_changes cid t sid osd nsd := by
  simp only [compare_section, List.filter_append, open_changes, total_changes,
    waitlist_changes, instr_changes]
  split_ifs <;> simp [field_change]

/-- The `WAITLIST_CHANGE` events among a section's field comparisons are
exactly the output of the `waitlist` comparison. -/
theorem filter_compare_section_waitlist (cid t sid : String) (osd nsd : SectionData) :
    (compare_section cid t sid osd nsd).filter (fun e => e.type == "WAITLIST_CHANGE") =
    waitlist_changes cid t sid osd nsd := by
  simp only [compare_section, List.filter_append, open_changes, total_changes,
    waitlist_changes, instr_changes]
  split_ifs <;> simp [field_change]

/-- The `INSTR_CHANGE` events among a section's field comparisons are
exactly the output of the `instructor` comparison. -/
theorem filter_compare_section_instr (cid t sid : String) (osd nsd : SectionData) :
    (compare_section cid t sid osd nsd).filter (fun e => e.type == "INSTR_CHANGE") =
    instr_changes cid t sid osd nsd := by
  simp only [compare_section, List.filter_append, open_changes, total_changes,
    waitlist_changes, instr_changes]
  split_ifs <;> simp [field_change]

/-- C4: for every pair of snapshots and every section present in both (in a
course present in both), the diff contains at most one open-field structural
event (`SEATS_OPENED` or `OPEN_CHANGE`, never both) for that section. -/
theorem diff_at_most_one_open_event
    {old_state new_state : State} {cid sid : String} {ocd ncd : CourseData}
    {osd nsd : SectionData}
    (hwfn : WF new_state)
    (ho : dict_get cid old_state = some ocd)
    (hn : dict_get cid new_state = some ncd)
    (hos : dict_get sid (ocd.sections.getD []) = some osd)
    (hns : dict_get sid (ncd.sections.getD []) = some nsd) :
    ((compare_states old_state new_state).filter
      (fun e => (e.type == "SEATS_OPENED" || e.type == "OPEN_CHANGE") &&
        (e.course == cid && e.section_ == sid))).length ≤ 1 := by
  obtain ⟨hndn, hsecn⟩ := hwfn
  have hnsnd := hsecn _ (dict_get_mem hn)
  rw [← List.filter_filter, filter_compare_states_section hndn ho hn hnsnd hos hns]
  by_cases hfe : ncd.fetch_error = true
  · simp [hfe]
  · rw [if_neg hfe, filter_compare_section_open]
    simp only [open_changes]
    split_ifs <;> simp

/-- Witness for C4 at a concrete pair of snapshots with a genuine
seats-opened transition. -/
theorem diff_at_most_one_open_event_witness :
    ((compare_states
        [("CMSC433", ⟨some "T", some [("0101", ⟨some 0, some 5, some 0, some "A"⟩)], false⟩)]
        [("CMSC433", ⟨some "T", some [("0101", ⟨some 3, some 5, some 0, some "A"⟩)], false⟩)]).filter
      (fun e => (e.type == "SEATS_OPENED" || e.type == "OPEN_CHANGE") &&
        (e.course == "CMSC433" && e.section_ == "0101"))).length ≤ 1 :=
  @diff_at_most_one_open_event
    [("CMSC433", ⟨some "T", some [("0101", ⟨some 0, some 5, some 0, some "A"⟩)], false⟩)]
    [("CMSC433", ⟨some "T", some [("0101", ⟨some 3, some 5, some 0, some "A"⟩)], false⟩)]
    "CMSC433" "0101"
    ⟨some "T", some [("0101", ⟨some 0, some 5, some 0, some "A"⟩)], false⟩
    ⟨some "T", some [("0101", ⟨some 3, some 5, some 0, some "A"⟩)], false⟩
    ⟨some 0, some 5, some 0, some "A"⟩ ⟨some 3, some 5, some 0, some "A"⟩
    (by decide) (by decide) (by decide) (by decide) (by decide)

/-- C5: for a section present in both snapshots (course present in both,
not fetch-errored in the new snapshot), a 0-to-positive `open` transition
yields exactly the `SEATS_OPENED` event carrying the old and new values;
otherwise a change of `open` with neither side the sentinel yields exactly
the `OPEN_CHANGE` event.  Concretely, a section `open=0,total=5` unchanged
yields no events at all, and `open` 0→3 yields exactly one `SEATS_OPENED`
event with old value 0 and new value 3. -/
theorem diff_open_rule
    {old_state new_state : State} {cid sid : String} {ocd ncd : CourseData}
    {osd nsd : SectionData}
    (hwfn : WF new_state)
    (ho : dict_get cid old_state = some ocd)
    (hn : dict_get cid new_state = some ncd)
    (hfe : ncd.fetch_error = false)
    (hos : dict_get sid (ocd.sections.getD []) = some osd)
    (hns : dict_get sid (ncd.sections.getD []) = some nsd) :
    ((osd.opn.getD PARSE_ERROR_DEFAULT = 0 ∧ nsd.opn.getD PARSE_ERROR_DEFAULT > 0) →
      (compare_states old_state new_state).filter
        (fun e => (e.type == "SEATS_OPENED" || e.type == "OPEN_CHANGE") &&
          (e.course == cid && e.section_ == sid)) =
        [field_change "SEATS_OPENED" cid (ncd.title.getD "Unknown") sid nsd "open"
          (.int (osd.opn.getD PARSE_ERROR_DEFAULT))
          (.int (nsd.opn.getD PARSE_ERROR_DEFAULT))]) ∧
    (¬(osd.opn.getD PARSE_ERROR_DEFAULT = 0 ∧ nsd.opn.getD PARSE_ERROR_DEFAULT > 0) →
      osd.opn.getD PARSE_ERROR_DEFAULT ≠ nsd.opn.getD PARSE_ERROR_DEFAULT →
      osd.opn.getD PARSE_ERROR_DEFAULT ≠ PARSE_ERROR_DEFAULT →
      nsd.opn.getD PARSE_ERROR_DEFAULT ≠ PARSE_ERROR_DEFAULT →
      (compare_states old_state new_state).filter
        (fun e => (e.type == "SEATS_OPENED" || e.type == "OPEN_CHANGE") &&
          (e.course == cid && e.section_ == sid)) =
        [field_change "OPEN_CHANGE" cid (ncd.title.getD "Unknown") sid nsd "open"
          (.int (osd.opn.getD PARSE_ERROR_DEFAULT))
          (.int (nsd.opn.getD PARSE_ERROR_DEFAULT))]) ∧
    compare_states
      [("CMSC433", ⟨some "T", some [("0101", ⟨some 0, some 5, some 0, some "A"⟩)], false⟩)]
      [("CMSC433", ⟨some "T", some [("0101", ⟨some 0, some 5, some 0, some "A"⟩)], false⟩)] = [] ∧
    compare_states
      [("CMSC433", ⟨some "T", some [("0101", ⟨some 0, some 5, some 0, some "A"⟩)], false⟩)]
      [("CMSC433", ⟨some "T", some [("0101", ⟨some 3, some 5, some 0, some "A"⟩)], false⟩)] =
      [field_change "SEATS_OPENED" "CMSC433" "T" "0101" ⟨some 3, some 5, some 0, some "A"⟩
        "open" (.int 0) (.int 3)] := by
  obtain ⟨hndn, hsecn⟩ := hwfn
  have hnsnd := hsecn _ (dict_get_mem hn)
  have hmaster := filter_compare_states_section hndn ho hn hnsnd hos hns
  refine ⟨?_, ?_, by decide, by decide⟩
  · intro hcond
    rw [← List.filter_filter, hmaster, if_neg (by simp [hfe]),
      filter_compare_section_open]
    simp only [open_changes]
    rw [if_pos hcond]
  · intro h1 h2 h3 h4
    rw [← List.filter_filter, hmaster, if_neg (by simp [hfe]),
      filter_compare_section_open]
    simp only [open_changes]
    rw [if_neg h1, if_pos ⟨h2, h4, h3⟩]

/-- Witness for C5: at the concrete 0→3 snapshots the first branch applies
and produces the single `SEATS_OPENED` event. -/
theorem diff_open_rule_witness :
    (compare_states
      [("CMSC433", ⟨some "T", some [("0101", ⟨some 0, some 5, some 0, some "A"⟩)], false⟩)]
      [("CMSC433", ⟨some "T", some [("0101", ⟨some 3, some 5, some 0, some "A"⟩)], false⟩)]).filter
      (fun e => (e.type == "SEATS_OPENED" || e.type == "OPEN_CHANGE") &&
        (e.course == "CMSC433" && e.section_ == "0101")) =
      [field_change "SEATS_OPENED" "CMSC433" "T" "0101"
        ⟨some 3, some 5, some 0, some "A"⟩ "open" (.int 0) (.int 3)] :=
  (@diff_open_rule
    [("CMSC433", ⟨some "T", some [("0101", ⟨some 0, some 5, some 0, some "A"⟩)], false⟩)]
    [("CMSC433", ⟨some "T", some [("0101", ⟨some 3, some 5, some 0, some "A"⟩)], false⟩)]
    "CMSC433" "0101"
    ⟨some "T", some [("0101", ⟨some 0, some 5, some 0, some "A"⟩)], false⟩
    ⟨some "T", some [("0101", ⟨some 3, some 5, some 0, some "A"⟩)], false⟩
    ⟨some 0, some 5, some 0, some "A"⟩ ⟨some 3, some 5, some 0, some "A"⟩
    (by decide) (by decide) (by decide) (by decide) (by decide) (by decide)).1
    (by decide)

/-- C6: for a section present in both snapshots (course present in both,
not fetch-errored in the new snapshot), any numeric field comparison in
which either side holds the `-999` sentinel is suppressed (the 0→positive
`SEATS_OPENED` rule cannot involve the sentinel, so the suppression also
covers both open-kind events); the instructor comparison is suppressed
exactly when the old instructor value is the `"Unknown"` sentinel, and an
`INSTR_CHANGE` is emitted whenever old differs from new and old is not that
sentinel. -/
theorem diff_unknown_suppressed
    {old_state new_state : State} {cid sid : String} {ocd ncd : CourseData}
    {osd nsd : SectionData}
    (hwfn : WF new_state)
    (ho : dict_get cid old_state = some ocd)
    (hn : dict_get cid new_state = some ncd)
    (hfe : ncd.fetch_error = false)
    (hos : dict_get sid (ocd.sections.getD []) = some osd)
    (hns : dict_get sid (ncd.sections.getD []) = some nsd) :
    ((osd.opn.getD PARSE_ERROR_DEFAULT = PARSE_ERROR_DEFAULT ∨
      nsd.opn.getD PARSE_ERROR_DEFAULT = PARSE_ERROR_DEFAULT) →
      (compare_states old_state new_state).filter
        (fun e => (e.type == "SEATS_OPENED" || e.type == "OPEN_CHANGE") &&
          (e.course == cid && e.section_ == sid)) = []) ∧
    ((osd.total.getD PARSE_ERROR_DEFAULT = PARSE_ERROR_DEFAULT ∨
      nsd.total.getD PARSE_ERROR_DEFAULT = PARSE_ERROR_DEFAULT) →
      (compare_states old_state new_state).filter
        (fun e => (e.type == "TOTAL_CHANGE") &&
          (e.course == cid && e.section_ == sid)) = []) ∧
    ((osd.waitlist.getD PARSE_ERROR_DEFAULT = PARSE_ERROR_DEFAULT ∨
      nsd.waitlist.getD PARSE_ERROR_DEFAULT = PARSE_ERROR_DEFAULT) →
      (compare_states old_state new_state).filter
        (fun e => (e.type == "WAITLIST_CHANGE") &&
          (e.course == cid && e.section_ == sid)) = []) ∧
    (osd.instructor.getD "Unknown" = "Unknown" →
      (compare_states old_state new_state).filter
        (fun e => (e.type == "INSTR_CHANGE") &&
          (e.course == cid && e.section_ == sid)) = []) ∧
    (osd.instructor.getD "Unknown" ≠ nsd.instructor.getD "TBA" →
      osd.instructor.getD "Unknown" ≠ "Unknown" →
      (compare_states old_state new_state).filter
        (fun e => (e.type == "INSTR_CHANGE") &&
          (e.course == cid && e.section_ == sid)) =
        [field_change "INSTR_CHANGE" cid (ncd.title.getD "Unknown") sid nsd
          "instructor" (.str (osd.instructor.getD "Unknown"))
          (.str (nsd.instructor.getD "TBA"))]) := by
  obtain ⟨hndn, hsecn⟩ := hwfn
  have hnsnd := hsecn _ (dict_get_mem hn)
  have hmaster := filter_compare_states_section hndn ho hn hnsnd hos hns
  refine ⟨?_, ?_, ?_, ?_, ?_⟩
  · intro hsent
    rw [← List.filter_filter, hmaster, if_neg (by simp [hfe]),
      filter_compare_section_open]
    simp only [open_changes, PARSE_ERROR_DEFAULT] at hsent ⊢
    rcases hsent with h | h <;> (rw [if_neg (by omega), if_neg (by omega)])
  · intro hsent
    rw [← List.filter_filter, hmaster, if_neg (by simp [hfe]),
      filter_compare_section_total]
    simp only [total_changes]
    rcases hsent with h | h
    · exact if_neg (fun hc => hc.2.2 h)
    · exact if_neg (fun hc => hc.2.1 h)
  · intro hsent
    rw [← List.filter_filter, hmaster, if_neg (by simp [hfe]),
      filter_compare_section_waitlist]
    simp only [waitlist_changes]
    rcases hsent with h | h
    · exact if_neg (fun hc => hc.2.2 h)
    · exact if_neg (fun hc => hc.2.1 h)
  · intro hsup
    rw [← List.filter_filter, hmaster, if_neg (by simp [hfe]),
      filter_compare_section_instr]
    simp only [instr_changes]
    exact if_neg (fun hc => hc.2 hsup)
  · intro hne hunk
    rw [← List.filter_filter, hmaster, if_neg (by simp [hfe]),
      filter_compare_section_instr]
    simp only [instr_changes]
    rw [if_pos ⟨hne, hunk⟩]

/-- Witness for C6: at concrete snapshots where the new `total` holds the
sentinel, no `TOTAL_CHANGE` is emitted for the section. -/
theorem diff_unknown_suppressed_witness :
    (compare_states
      [("CMSC433", ⟨some "T", some [("0101", ⟨some 2, some 5, some 0, some "A"⟩)], false⟩)]
      [("CMSC433", ⟨some "T", some [("0101", ⟨some 2, some (-999), some 0, some "A"⟩)], false⟩)]).filter
      (fun e => (e.type == "TOTAL_CHANGE") &&
        (e.course == "CMSC433" && e.section_ == "0101")) = [] :=
  (@diff_unknown_suppressed
    [("CMSC433", ⟨some "T", some [("0101", ⟨some 2, some 5, some 0, some "A"⟩)], false⟩)]
    [("CMSC433", ⟨some "T", some [("0101", ⟨some 2, some (-999), some 0, some "A"⟩)], false⟩)]
    "CMSC433" "0101"
    ⟨some "T", some [("0101", ⟨some 2, some 5, some 0, some "A"⟩)], false⟩
    ⟨some "T", some [("0101", ⟨some 2, some (-999), some 0, some "A"⟩)], false⟩
    ⟨some 2, some 5, some 0, some "A"⟩ ⟨some 2, some (-999), some 0, some "A"⟩
    (by decide) (by decide) (by decide) (by decide) (by decide) (by decide)).2.1
    (by decide)

/-- C7: a section present in the old course but absent from the new course
(course present in both, not fetch-errored in the new snapshot) yields
exactly one `SECTION_REMOVED` event, carrying the old section's data; and
globally, the diff is a concatenation in which all removal events come
after all addition and field-change events (second pass). -/
theorem diff_section_removed
    {old_state new_state : State} {cid sid : String} {ocd ncd : CourseData}
    {osd : SectionData}
    (hwfo : WF old_state)
    (ho : dict_get cid old_state = some ocd)
    (hn : dict_get cid new_state = some ncd)
    (hfe : ncd.fetch_error = false)
    (hos : dict_get sid (ocd.sections.getD []) = some osd)
    (hns : dict_get sid (ncd.sections.getD []) = none) :
    (compare_states old_state new_state).filter
        (fun e => (e.type == "SECTION_REMOVED") &&
          (e.course == cid && e.section_ == sid)) =
      [plain_change "SECTION_REMOVED" cid (ocd.title.getD "Unknown") sid osd] ∧
    ∃ l1 l2, compare_states old_state new_state = l1 ++ l2 ∧
      (∀ e ∈ l1, e.type ≠ "SECTION_REMOVED") ∧
      (∀ e ∈ l2, e.type = "SECTION_REMOVED") := by
  obtain ⟨hndo, hseco⟩ := hwfo
  have hosnd := hseco _ (dict_get_mem ho)
  constructor
  · unfold compare_states
    rw [List.filter_append]
    have hpass1 : (new_state.flatMap (fun p => course_changes old_state p.1 p.2)).filter
        (fun e => (e.type == "SECTION_REMOVED") &&
          (e.course == cid && e.section_ == sid)) = [] := by
      rw [List.filter_eq_nil_iff]
      intro e he hpred
      simp only [List.mem_flatMap] at he
      obtain ⟨p, hp, hmem⟩ := he
      simp only [Bool.and_eq_true, beq_iff_eq] at hpred
      exact (mem_course_changes hmem).2 hpred.1
    rw [hpass1, List.nil_append, List.filter_flatMap]
    have hz : ∀ p ∈ old_state, p.1 ≠ cid →
        (removal_changes new_state p.1 p.2).filter
          (fun e => (e.type == "SECTION_REMOVED") &&
            (e.course == cid && e.section_ == sid)) = [] := by
      intro p hp hne
      rw [List.filter_eq_nil_iff]
      intro e he hpred
      simp only [Bool.and_eq_true, beq_iff_eq] at hpred
      exact hne ((mem_removal_changes he).1 ▸ hpred.2.1)
    rw [flatMap_eq_single hndo ho hz, removal_changes_of_present hfe hn,
      List.filter_flatMap]
    have hz2 : ∀ q ∈ ocd.sections.getD [], q.1 ≠ sid →
        ((if dict_get q.1 (ncd.sections.getD []) = none then
            [plain_change "SECTION_REMOVED" cid (ocd.title.getD "Unknown") q.1 q.2]
          else []).filter
          (fun e => (e.type == "SECTION_REMOVED") &&
            (e.course == cid && e.section_ == sid))) = [] := by
      intro q hq hne
      split_ifs with hg
      · simp [plain_change, hne]
      · rfl
    rw [flatMap_eq_single hosnd hos hz2, hns, if_pos rfl]
    simp [plain_change]
  · refine ⟨new_state.flatMap (fun p => course_changes old_state p.1 p.2),
      old_state.flatMap (fun p => removal_changes new_state p.1 p.2), rfl, ?_, ?_⟩
    · intro e he
      simp only [List.mem_flatMap] at he
      obtain ⟨p, hp, hmem⟩ := he
      exact (mem_course_changes hmem).2
    · intro e he
      simp only [List.mem_flatMap] at he
      obtain ⟨p, hp, hmem⟩ := he
      exact (mem_removal_changes hmem).2.1

/-- Witness for C7 at concrete snapshots where section `"0101"` disappears
from course `"CMSC433"`. -/
theorem diff_section_removed_witness :
    (compare_states
        [("CMSC433", ⟨some "T", some [("0101", ⟨some 2, some 5, some 0, some "A"⟩),
            ("0102", ⟨some 1, some 5, some 0, some "A"⟩)], false⟩)]
        [("CMSC433", ⟨some "T", some [("0102", ⟨some 1, some 5, some 0, some "A"⟩)], false⟩)]).filter
        (fun e => (e.type == "SECTION_REMOVED") &&
          (e.course == "CMSC433" && e.section_ == "0101")) =
      [plain_change "SECTION_REMOVED" "CMSC433" "T" "0101"
        ⟨some 2, some 5, some 0, some "A"⟩] :=
  (@diff_section_removed
    [("CMSC433", ⟨some "T", some [("0101", ⟨some 2, some 5, some 0, some "A"⟩),
        ("0102", ⟨some 1, some 5, some 0, some "A"⟩)], false⟩)]
    [("CMSC433", ⟨some "T", some [("0102", ⟨some 1, some 5, some 0, some "A"⟩)], false⟩)]
    "CMSC433" "0101"
    ⟨some "T", some [("0101", ⟨some 2, some 5, some 0, some "A"⟩),
        ("0102", ⟨some 1, some 5, some 0, some "A"⟩)], false⟩
    ⟨some "T", some [("0102", ⟨some 1, some 5, some 0, some "A"⟩)], false⟩
    ⟨some 2, some 5, some 0, some "A"⟩
    (by decide) (by decide) (by decide) (by decide) (by decide) (by decide)).1

/-- Flat-mapping a singleton-producing function is a map. -/
theorem flatMap_singleton_eq_map {α β : Type} (l : List α) (g : α → β) :
    l.flatMap (fun a => [g a]) = l.map g := by
  induction l with
  | nil => rfl
  | cons x xs ih => rw [List.flatMap_cons, List.map_cons, ih]; rfl

/-- Unfolding of `course_changes` when the course is absent from the old
state and the new course data is not fetch-errored: one new-course event
per section (type chosen by the literal `"CMSC4"` string test), and then,
because the `continue` of line 153 binds to the inner single-line `for`,
the section loop still runs against the empty `old_sections` and emits one
`NEW_SECTION` event per section. -/
theorem course_changes_of_absent {old_state : State} {cid : String} {ncd : CourseData}
    (hfe : ncd.fetch_error = false) (ho : dict_get cid old_state = none) :
    course_changes old_state cid ncd =
      (ncd.sections.getD []).map (fun p =>
        plain_change (if py_startswith cid "CMSC4" then "NEW_CMSC4_COURSE"
          else "NEW_COURSE_SECTION") cid (ncd.title.getD "Unknown") p.1 p.2) ++
      (ncd.sections.getD []).map (fun p =>
        plain_change "NEW_SECTION" cid (ncd.title.getD "Unknown") p.1 p.2) := by
  unfold course_changes
  rw [ho]
  simp only [hfe, Bool.false_eq_true, if_false, Option.getD_none]
  have hsc : ∀ p : String × SectionData,
      section_changes cid (ncd.title.getD "Unknown") [] p =
      [plain_change "NEW_SECTION" cid (ncd.title.getD "Unknown") p.1 p.2] := by
    intro p
    simp [section_changes, dict_get]
  rw [List.flatMap_congr (fun p _ => hsc p), flatMap_singleton_eq_map]
  simp

/-- C1 (amended): for a course absent from the old snapshot, present and
not fetch-errored in the new one, the diff events carrying its course id
are one new-course event per section — classified `NEW_CMSC4_COURSE`
exactly when the course id starts with the literal string `"CMSC4"`, else
`NEW_COURSE_SECTION` — followed by one `NEW_SECTION` event per section
(the section pass also runs for a brand-new course). -/
theorem diff_new_course
    {old_state new_state : State} {cid : String} {ncd : CourseData}
    (hndn : (new_state.map Prod.fst).Nodup)
    (hn : dict_get cid new_state = some ncd)
    (hfe : ncd.fetch_error = false)
    (ho : dict_get cid old_state = none) :
    (compare_states old_state new_state).filter (fun e => e.course == cid) =
      (ncd.sections.getD []).map (fun p =>
        plain_change (if py_startswith cid "CMSC4" then "NEW_CMSC4_COURSE"
          else "NEW_COURSE_SECTION") cid (ncd.title.getD "Unknown") p.1 p.2) ++
      (ncd.sections.getD []).map (fun p =>
        plain_change "NEW_SECTION" cid (ncd.title.getD "Unknown") p.1 p.2) := by
  unfold compare_states
  rw [List.filter_append]
  have hpass2 : (old_state.flatMap (fun p => removal_changes new_state p.1 p.2)).filter
      (fun e => e.course == cid) = [] := by
    rw [List.filter_eq_nil_iff]
    intro e he hpred
    simp only [List.mem_flatMap] at he
    obtain ⟨p, hp, hmem⟩ := he
    simp only [beq_iff_eq] at hpred
    have hcourse := (mem_removal_changes hmem).1
    rw [hcourse] at hpred
    exact dict_get_eq_none.mp ho p hp hpred
  have hz : ∀ p ∈ new_state, p.1 ≠ cid →
      (course_changes old_state p.1 p.2).filter (fun e => e.course == cid) = [] := by
    intro p hp hne
    rw [List.filter_eq_nil_iff]
    intro e he hpred
    simp only [beq_iff_eq] at hpred
    have hcourse := (mem_course_changes he).1
    rw [hcourse] at hpred
    exact hne hpred
  rw [hpass2, List.append_nil, List.filter_flatMap, flatMap_eq_single hndn hn hz,
    course_changes_of_absent hfe ho, List.filter_eq_self]
  intro e he
  simp only [List.mem_append, List.mem_map] at he
  rcases he with ⟨p, hp, heq⟩ | ⟨p, hp, heq⟩ <;>
    (rw [← heq]; simp [plain_change])

/-- Witness for C1 (amended) at the concrete brand-new course
`"CMSC499B"`: it starts with `"CMSC4"`, so its single section produces a
`NEW_CMSC4_COURSE` event followed by a `NEW_SECTION` event. -/
theorem diff_new_course_witness :
    (compare_states []
        [("CMSC499B", ⟨some "Special Topics", some
          [("0101", ⟨some 3, some 30, some 0, some "Staff"⟩)], false⟩)]).filter
      (fun e => e.course == "CMSC499B") =
      [plain_change "NEW_CMSC4_COURSE" "CMSC499B" "Special Topics" "0101"
        ⟨some 3, some 30, some 0, some "Staff"⟩,
       plain_change "NEW_SECTION" "CMSC499B" "Special Topics" "0101"
        ⟨some 3, some 30, some 0, some "Staff"⟩] := by
  have h := @diff_new_course []
    [("CMSC499B", ⟨some "Special Topics", some
      [("0101", ⟨some 3, some 30, some 0, some "Staff"⟩)], false⟩)]
    "CMSC499B"
    ⟨some "Special Topics", some
      [("0101", ⟨some 3, some 30, some 0, some "Staff"⟩)], false⟩
    (by decide) (by decide) (by decide) (by decide)
  rw [h]
  decide

/-- C1 counterexample: as stated the claim is false on the code — the
brand-new course `"CMSC499B"` *does* start with the literal `"CMSC4"`, so
its diff contains one `NEW_CMSC4_COURSE` event and no `NEW_COURSE_SECTION`
event (and additionally one `NEW_SECTION` event from the fall-through
section pass). -/
theorem diff_new_course_counterexample :
    py_startswith "CMSC499B" "CMSC4" = true ∧
    ((compare_states []
        [("CMSC499B", ⟨some "Special Topics", some
          [("0101", ⟨some 3, some 30, some 0, some "Staff"⟩)], false⟩)]).filter
      (fun e => e.type == "NEW_COURSE_SECTION")).length = 0 ∧
    ((compare_states []
        [("CMSC499B", ⟨some "Special Topics", some
          [("0101", ⟨some 3, some 30, some 0, some "Staff"⟩)], false⟩)]).filter
      (fun e => e.type == "NEW_CMSC4_COURSE")).length = 1 ∧
    ((compare_states []
        [("CMSC499B", ⟨some "Special Topics", some
          [("0101", ⟨some 3, some 30, some 0, some "Staff"⟩)], false⟩)]).filter
      (fun e => e.type == "NEW_SECTION")).length = 1 := by
  decide

/-- C8 (amended): `compare_states` iterates the new snapshot's courses in
the mapping's insertion order, so the addition and field-change events
(everything except removals) appear grouped by course, with the blocks
following the insertion order of `new_state` rather than sorted course-id
order. -/
theorem diff_grouped_by_insertion_order (old_state new_state : State) :
    ((compare_states old_state new_state).filter
        (fun e => e.type != "SECTION_REMOVED")).map (fun e => e.course) =
      new_state.flatMap (fun p =>
        List.replicate (course_changes old_state p.1 p.2).length p.1) := by
  unfold compare_states
  rw [List.filter_append]
  have h2 : (old_state.flatMap (fun p => removal_changes new_state p.1 p.2)).filter
      (fun e => e.type != "SECTION_REMOVED") = [] := by
    rw [List.filter_eq_nil_iff]
    intro e he
    simp only [List.mem_flatMap] at he
    obtain ⟨p, hp, hmem⟩ := he
    simp [bne_iff_ne, (mem_removal_changes hmem).2.1]
  have h1 : (new_state.flatMap (fun p => course_changes old_state p.1 p.2)).filter
      (fun e => e.type != "SECTION_REMOVED") =
      new_state.flatMap (fun p => course_changes old_state p.1 p.2) := by
    rw [List.filter_eq_self]
    intro e he
    simp only [List.mem_flatMap] at he
    obtain ⟨p, hp, hmem⟩ := he
    simpa [bne_iff_ne] using (mem_course_changes hmem).2
  rw [h1, h2, List.append_nil, List.map_flatMap]
  apply List.flatMap_congr
  intro p hp
  rw [List.eq_replicate_iff]
  refine ⟨by rw [List.length_map], ?_⟩
  intro b hb
  simp only [List.mem_map] at hb
  obtain ⟨e, he, heq⟩ := hb
  rw [← heq]
  exact (mem_course_changes he).1

/-- C8 counterexample: with `"CMSC499B"` inserted before `"CMSC436"` in
the new snapshot, the diff's events are grouped `"CMSC499B"` first even
though `"CMSC436"` sorts first, and permuting the insertion order of the
snapshot mapping changes the output sequence. -/
theorem diff_insertion_order_counterexample :
    ((compare_states []
        [("CMSC499B", ⟨some "S", some [("0101", ⟨some 1, some 5, some 0, some "A"⟩)], false⟩),
         ("CMSC436", ⟨some "P", some [("0201", ⟨some 2, some 6, some 0, some "B"⟩)], false⟩)]).map
      (fun e => e.course)) =
      ["CMSC499B", "CMSC499B", "CMSC436", "CMSC436"] ∧
    py_str_lt "CMSC436" "CMSC499B" = true ∧
    compare_states []
        [("CMSC499B", ⟨some "S", some [("0101", ⟨some 1, some 5, some 0, some "A"⟩)], false⟩),
         ("CMSC436", ⟨some "P", some [("0201", ⟨some 2, some 6, some 0, some "B"⟩)], false⟩)] ≠
      compare_states []
        [("CMSC436", ⟨some "P", some [("0201", ⟨some 2, some 6, some 0, some "B"⟩)], false⟩),
         ("CMSC499B", ⟨some "S", some [("0101", ⟨some 1, some 5, some 0, some "A"⟩)], false⟩)] := by
  refine ⟨by decide, by decide, by decide⟩

/-- C2 (code defect): the renderer is not total.  `format_section_line`
itself does render absent numeric fields as `"?"` (first conjunct), but
`format_state_message` called with a non-empty change lookup reaches the
removed-sections block, whose loop iterates over the undefined name
`changes` (line 231 — the in-source comment admits the bug) and raises
`NameError` instead of returning a message (second conjunct). -/
theorem format_state_message_not_total :
    format_section_line "0101" ⟨none, some 5, none, some "A"⟩ [] =
      "  ‚Ä¢ `0101`: Open: ?, Total: 5, Waitlist: ?, Instr: A" ∧
    format_state_message
      [("CMSC433", ⟨some "T", some [("0101", ⟨some 3, some 5, some 0, some "A"⟩)], false⟩)]
      [(("CMSC433", "0101"),
        [field_change "SEATS_OPENED" "CMSC433" "T" "0101"
          ⟨some 3, some 5, some 0, some "A"⟩ "open" (.int 0) (.int 3)])] =
      .error "NameError: name changes is not defined" := by
  exact ⟨rfl, rfl⟩

/-- C9: when at least one course was fetched but the merged state holds no
sections for any course, a first run (empty prior state) returns status 500
and saves nothing, while a subsequent run (non-empty prior state) skips the
update and returns status 200, also saving nothing. -/
theorem handler_parsing_failure
    (old_state fetched_state : State) (save_ok : Bool)
    (hfetch : fetched_state ≠ [])
    (hnosec : ∀ p ∈ (merge_fetched_state old_state fetched_state).1,
      p.2.sections.getD [] = ([] : List (String × SectionData))) :
    (old_state = [] →
      lambda_handler old_state fetched_state save_ok =
        .ok ⟨500, "Failed parsing on initial run.", none⟩) ∧
    (old_state ≠ [] →
      lambda_handler old_state fetched_state save_ok =
        .ok ⟨200, "Parsing failed, skipped update.", none⟩) := by
  have hps : (merge_fetched_state old_state fetched_state).1.any
      (fun p => !(p.2.sections.getD []).isEmpty) = false := by
    rw [List.any_eq_false]
    intro p hp
    simp [hnosec p hp]
  have hfe : fetched_state.isEmpty = false := by
    cases fetched_state with
    | nil => exact absurd rfl hfetch
    | cons a l => rfl
  constructor
  · intro hold
    subst hold
    simp [lambda_handler, hps, hfe]
  · intro hold
    have holde : old_state.isEmpty = false := by
      cases old_state with
      | nil => exact absurd rfl hold
      | cons a l => rfl
    simp [lambda_handler, hps, hfe, holde]

/-- Witness for C9, first-run branch: one fetched-and-errored course, no
prior state, status 500 and no save. -/
theorem handler_parsing_failure_witness :
    lambda_handler [] [("CMSC433", ⟨some "T", none, true⟩)] true =
      .ok ⟨500, "Failed parsing on initial run.", none⟩ :=
  (handler_parsing_failure [] [("CMSC433", ⟨some "T", none, true⟩)] true
    (by decide) (by decide)).1 rfl

/-- Extending a change lookup with one event appends it to its own key's
entry and leaves every other key's entry unchanged. -/
theorem dict_get_add_change (lookup : ChangeLookup) (k key : String × String)
    (c : Change) :
    (dict_get key (add_change lookup k c)).getD [] =
      (dict_get key lookup).getD [] ++ (if k = key then [c] else []) := by
  induction lookup with
  | nil =>
    by_cases h : k = key
    · simp [add_change, dict_get, h]
    · simp [add_change, dict_get, h]
  | cons q rest ih =>
    obtain ⟨qk, qcs⟩ := q
    by_cases h1 : qk = k
    · subst h1
      by_cases h2 : qk = key
      · simp [add_change, dict_get, h2]
      · simp [add_change, dict_get, h2]
    · by_cases h2 : qk = key
      · subst h2
        have hk : ¬k = qk := fun hh => h1 hh.symm
        simp [add_change, dict_get, h1, hk]
      · simp [add_change, dict_get, h1, h2, ih]

/-- Folding events into a lookup: each key's entry is the initial entry
followed by the events with that key, in input order. -/
theorem dict_get_build_aux (changes : List Change) (acc : ChangeLookup)
    (key : String × String) :
    (dict_get key (changes.foldl (fun lk c => add_change lk (c.course, c.section_) c) acc)).getD [] =
      (dict_get key acc).getD [] ++
        changes.filter (fun c => (c.course, c.section_) == key) := by
  induction changes generalizing acc with
  | nil => simp
  | cons c cs ih =>
    rw [List.foldl_cons, ih, dict_get_add_change, List.filter_cons]
    by_cases h : (c.course, c.section_) = key
    · simp [h, List.append_assoc]
    · simp [h]

/-- One `add_change` step grows the total number of stored events by
exactly one. -/
theorem add_change_length_sum (lookup : ChangeLookup) (k : String × String)
    (c : Change) :
    ((add_change lookup k c).map (fun kv => kv.2.length)).sum =
      (lookup.map (fun kv => kv.2.length)).sum + 1 := by
  induction lookup with
  | nil => simp [add_change]
  | cons q rest ih =>
    obtain ⟨qk, qcs⟩ := q
    simp only [add_change]
    split_ifs with h
    · simp only [List.map_cons, List.sum_cons, List.length_append, List.length_cons,
        List.length_nil]
      omega
    · simp only [List.map_cons, List.sum_cons, ih]
      omega

/-- Folding events into a lookup stores each input event exactly once. -/
theorem build_lookup_sum_aux (changes : List Change) (acc : ChangeLookup) :
    ((changes.foldl (fun lk c => add_change lk (c.course, c.section_) c) acc).map
      (fun kv => kv.2.length)).sum =
      (acc.map (fun kv => kv.2.length)).sum + changes.length := by
  induction changes generalizing acc with
  | nil => simp
  | cons c cs ih =>
    rw [List.foldl_cons, ih, add_change_length_sum, List.length_cons]
    omega

/-- C10: `build_change_lookup` maps each key `(courseId, sectionId)` to
exactly the input events carrying that key, preserving their relative input
order, and every event of the input is stored exactly once overall. -/
theorem build_change_lookup_spec (changes : List Change) :
    (∀ key : String × String,
      (dict_get key (build_change_lookup changes)).getD [] =
        changes.filter (fun c => (c.course, c.section_) == key)) ∧
    ((build_change_lookup changes).map (fun kv => kv.2.length)).sum =
      changes.length := by
  constructor
  · intro key
    unfold build_change_lookup
    rw [dict_get_build_aux]
    simp [dict_get]
  · unfold build_change_lookup
    rw [build_lookup_sum_aux]
    simp

end SocScraper
